import Mathlib

/-
  Shallow embedding of src/camera/camera_linux.cpp: a single-session
  libcamera capture wrapper.  The external camera stack (libcamera) is
  modelled as an environment record `CamEnv` giving the outcome of every
  stack call the source makes; the mutable file-static globals
  (cam_manager, camera, allocator, config, requests, callback_handle)
  become an explicit `SessionState` record threaded through the
  operations.  Unsigned int arithmetic of the source is modelled on Nat
  with explicit reduction mod 2 ^ 32 where the source can wrap.
  A C++ outcome the source leaves undefined (out-of-bounds operator[],
  null dereference, empty std::optional access) is modelled as a
  distinguished result (`BufResult.ub`, `Option.none`), and the abort()
  call in buffer_at as `BufResult.contiguityAbort`.
-/

namespace CameraLinux

/-- Modulus of 32 bit unsigned arithmetic: 2 ^ 32. -/
def M32 : Nat := 4294967296

/-- Wrapping addition of unsigned 32 bit quantities, as C computes
`b.offset + b.length` on `unsigned int`. -/
def add32 (a b : Nat) : Nat := (a + b) % M32

/-- Wrapping subtraction `a - b` of unsigned 32 bit quantities
(faithful for a b < M32), as C computes `max_size.width - width`. -/
def sub32 (a b : Nat) : Nat := (M32 + a - b) % M32

/-- Pixel format tags the source mentions; `other` stands for any
further format a device could substitute during validation. -/
inductive PixFmt
  | YUV420
  | SBGGR8
  | other (tag : Nat)
deriving DecidableEq

/-- One physical memory plane of a hardware frame buffer:
libcamera FrameBuffer::Plane with its dmabuf fd, offset and length. -/
structure Plane where
  fd : Int
  offset : Nat
  length : Nat
deriving DecidableEq

/-- A hardware frame buffer: its list of planes. -/
structure FrameBuffer where
  planes : List Plane
deriving DecidableEq

/-- The C struct `buffer` of camera_linux.h: one contiguous memory
region descriptor. -/
structure buffer where
  fd : Int
  offset : Nat
  length : Nat
deriving DecidableEq

/-- The C struct `format` of camera_linux.h. -/
structure format where
  width : Nat
  height : Nat
  stride : Nat
deriving DecidableEq

/-- Outcome of buffer_at: `ub` marks an execution the C++ source leaves
undefined (out-of-bounds indexing or null dereference),
`contiguityAbort` the abort() call, `ok` a returned descriptor. -/
inductive BufResult
  | ub
  | contiguityAbort
  | ok (b : buffer)
deriving DecidableEq

/-- The verification loop of buffer_at: `for (auto &p : buf->planes())`
checks `p.fd.get() != b.fd || p.offset != b.offset + b.length` and
aborts on mismatch, else accumulates `b.length += p.length`.  `base` is
`b.offset`; `len` is the running `b.length`.  Returns none on abort. -/
def contig_fold (fd : Int) (base : Nat) : List Plane → Nat → Option Nat
  | [], len => some len
  | p :: ps, len =>
    if p.fd ≠ fd ∨ p.offset ≠ add32 base len then none
    else contig_fold fd base ps (add32 len p.length)

/-- The body of buffer_at after the buffer has been fetched: reads
plane 0 (undefined when there is none), initialises
`b = \x7bplane.fd, plane.offset, plane.offset\x7d` — note the source
initialises b.length to `plane.offset`, not 0 — and runs the
verification loop over all planes. -/
def extract_descriptor (buf : FrameBuffer) : BufResult :=
  match buf.planes with
  | [] => .ub
  | plane :: _ =>
    match contig_fold plane.fd plane.offset buf.planes plane.offset with
    | none => .contiguityAbort
    | some len => .ok ⟨plane.fd, plane.offset, len⟩

/-- StreamConfiguration of the visible stream (index 0 of the
CameraConfiguration): the fields the source reads or writes. -/
structure StreamCfg where
  width : Nat
  height : Nat
  stride : Nat
  pixelFormat : PixFmt
  bufferCount : Nat
deriving DecidableEq

/-- The file-static session globals of camera_linux.cpp: cam_manager,
camera and allocator are modelled by whether the pointer is non-null,
config by the stored validated stream-0 configuration, requests by the
list of request cookies in pool order, buffers by the allocated frame
buffers, callback_handle by the stored token. -/
structure SessionState where
  manager : Bool
  camera : Bool
  allocator : Bool
  config : Option StreamCfg
  buffers : List FrameBuffer
  requests : List Nat
  callback_handle : Nat
deriving DecidableEq

/-- Resource release calls the source can make while unwinding or
closing, in the order they appear textually. -/
inductive Action
  | deviceStop
  | requestsClear
  | allocFree
  | cameraRelease
  | managerStop
deriving DecidableEq

/-- libcamera Request completion status values. -/
inductive ReqStatus
  | pending
  | complete
  | cancelled
deriving DecidableEq

/-- requestComplete: returns the list of caller callback invocations
(handle, cookie) the call performs.  A cancelled request returns early
with no invocation; any other status invokes the callback once. -/
def requestComplete (st : SessionState) (status : ReqStatus) (cookie : Nat) :
    List (Nat × Nat) :=
  if status = .cancelled then []
  else [(st.callback_handle, cookie)]

/-- num_buffers: `return requests.size()`. -/
def num_buffers (st : SessionState) : Nat := st.requests.length

/-- buffer_at: reads `config->at(0)` (undefined on a null config), the
stream, then indexes `allocator->buffers(stream)[idx]` with the
unchecked operator[] (undefined out of bounds), and extracts the
descriptor. -/
def buffer_at (st : SessionState) (idx : Nat) : BufResult :=
  if st.config.isNone then .ub
  else if st.allocator = false then .ub
  else
    match st.buffers.get? idx with
    | none => .ub
    | some buf => extract_descriptor buf

/-- frame_format: reads width, height and stride of `config->at(0)`;
undefined (none) when the config global is null. -/
def frame_format (st : SessionState) : Option format :=
  st.config.map fun c => ⟨c.width, c.height, c.stride⟩

/-- Environment: outcome of every call the source makes on the external
camera stack.  genConfig is the stream-0 entry of the configuration
returned by generateConfiguration (none models a null configuration);
validate is the device adjustment applied to the stream-0 entry by
conf->validate(); queueRet gives the status of queueRequest per request
cookie. -/
structure CamEnv where
  managerStartRet : Int
  numCameras : Nat
  acquireRet : Int
  genConfig : Option StreamCfg
  validate : StreamCfg → StreamCfg
  pixelArraySize : Option (Nat × Nat)
  configureRet : Int
  allocateRet : Int
  allocBuffers : List FrameBuffer
  createRequestOk : Nat → Bool
  addBufferRet : Nat → Int
  startRet : Int
  queueRet : Nat → Int

/-- The stream-0 configuration after the source mutates the generated
one: size set to the requested (width, height), pixel format forced to
YUV420, bufferCount set to 1; stride is left as generated. -/
def mkStream0 (g : StreamCfg) (width height : Nat) : StreamCfg :=
  ⟨width, height, g.stride, .YUV420, 1⟩

/-- Request steps performed by queue_request, tagged with the cookie of
the affected request. -/
inductive QAction
  | reuse (cookie : Nat)
  | submit (cookie : Nat)
deriving DecidableEq

/-- queue_request: `requests.at(buf_idx)` throws std::out_of_range for
an index past the end (modelled as .error ()); otherwise the request is
marked reusable and submitted, and the device status is returned
together with the step trace and the unchanged session state. -/
def queue_request (st : SessionState) (env : CamEnv) (i : Nat) :
    Except Unit (Int × List QAction × SessionState) :=
  match st.requests.get? i with
  | none => .error ()
  | some cookie => .ok (env.queueRet cookie, [.reuse cookie, .submit cookie], st)

/-- close_camera: camera->stop(); requests.clear();
allocator->free(stream) (after reading config->at(0));
allocator = nullptr; camera->release(); camera = nullptr;
cam_manager->stop(); cam_manager = nullptr.  Returns none when a global
the call dereferences is null (undefined in the source), otherwise the
release trace in program order and the final state.  The config global
is not cleared by the source. -/
def close_camera (st : SessionState) :
    Option (List Action × SessionState) :=
  if st.camera = false then none
  else if st.config.isNone then none
  else if st.allocator = false then none
  else if st.manager = false then none
  else
    some ([.deviceStop, .requestsClear, .allocFree, .cameraRelease, .managerStop],
      ⟨false, false, false, st.config, [], [], st.callback_handle⟩)

/-- The request pool build loop of open_camera: for each buffer index,
createRequest(i) (failure when the environment returns no request) then
addBuffer (failure on a negative status); on failure the whole build
fails, else the cookie list in pool order is returned.  First argument
is the next index, second the number of buffers still to process. -/
def buildRequests (env : CamEnv) : Nat → Nat → Option (List Nat)
  | _, 0 => some []
  | i, n + 1 =>
    if env.createRequestOk i = false then none
    else if env.addBufferRet i < 0 then none
    else (buildRequests env (i + 1) n).map (i :: ·)

/-- Result of open_camera: returned status, the release calls performed
before returning, and the session globals after the call. -/
structure OpenResult where
  status : Int
  releases : List Action
  state : SessionState
deriving DecidableEq

/-- open_camera, stage by stage as in the source: manager start; empty
camera list; acquire; generateConfiguration null check; mutation of
stream 0; unconditional dereference of the PixelArraySize property
(none result: the source calls .value() on an empty optional, modelled
as the undefined outcome none); first validate; pixel format check;
second validate; configure; allocate; request pool build; on success
the globals are assigned.  -EINVAL is -22. -/
def open_camera (st : SessionState) (env : CamEnv)
    (width height handle : Nat) : Option OpenResult :=
  if env.managerStartRet ≠ 0 then some ⟨env.managerStartRet, [], st⟩
  else if env.numCameras = 0 then some ⟨-22, [.managerStop], st⟩
  else if env.acquireRet ≠ 0 then some ⟨env.acquireRet, [.managerStop], st⟩
  else
    match env.genConfig with
    | none => some ⟨-22, [.cameraRelease, .managerStop], st⟩
    | some g =>
      match env.pixelArraySize with
      | none => none
      | some _ =>
        if (env.validate (mkStream0 g width height)).pixelFormat ≠ .YUV420 then
          some ⟨-22, [.cameraRelease, .managerStop], st⟩
        else if env.configureRet ≠ 0 then
          some ⟨env.configureRet, [.cameraRelease, .managerStop], st⟩
        else if env.allocateRet < 0 then
          some ⟨-22, [.cameraRelease, .managerStop], st⟩
        else
          match buildRequests env 0 env.allocBuffers.length with
          | none => some ⟨-22, [.allocFree, .cameraRelease, .managerStop], st⟩
          | some reqs =>
            some ⟨0, [], ⟨true, true, true,
              some (env.validate (env.validate (mkStream0 g width height))),
              env.allocBuffers, reqs, handle⟩⟩

/-- The stages at which open_camera can stop.  Request creation failure
and buffer binding failure share the poolBuild stage: the source
unwinds them identically. -/
inductive Stage
  | managerStart
  | emptyDevices
  | acquire
  | genConfig
  | formatRejected
  | configure
  | allocate
  | poolBuild
  | success
deriving DecidableEq

/-- The resources acquired before each failing stage, released in
reverse acquisition order: nothing before manager start succeeded; the
manager once started; the device once acquired; the allocated buffers
once the pool build began. -/
def expectedReleases : Stage → List Action
  | .managerStart => []
  | .emptyDevices => [.managerStop]
  | .acquire => [.managerStop]
  | .genConfig => [.cameraRelease, .managerStop]
  | .formatRejected => [.cameraRelease, .managerStop]
  | .configure => [.cameraRelease, .managerStop]
  | .allocate => [.cameraRelease, .managerStop]
  | .poolBuild => [.allocFree, .cameraRelease, .managerStop]
  | .success => []

/-- The first stage of open_camera at which the environment makes the
call fail, mirroring the branch structure of open_camera. -/
def failStage (env : CamEnv) (width height : Nat) : Stage :=
  if env.managerStartRet ≠ 0 then .managerStart
  else if env.numCameras = 0 then .emptyDevices
  else if env.acquireRet ≠ 0 then .acquire
  else
    match env.genConfig with
    | none => .genConfig
    | some g =>
      if (env.validate (mkStream0 g width height)).pixelFormat ≠ .YUV420 then
        .formatRejected
      else if env.configureRet ≠ 0 then .configure
      else if env.allocateRet < 0 then .allocate
      else
        match buildRequests env 0 env.allocBuffers.length with
        | none => .poolBuild
        | some _ => .success

/-- libcamera Rectangle, as used for the ScalerCrop control. -/
structure Rect where
  x : Nat
  y : Nat
  width : Nat
  height : Nat
deriving DecidableEq

/-- The request queueing loop of start_camera: submit each pooled
request in order, returning the first nonzero status immediately (the
failing submission included in the attempted list, the rest
unattempted), else status 0 with every request submitted. -/
def queueAll (env : CamEnv) : List Nat → Int × List Nat
  | [] => (0, [])
  | c :: rest =>
    if env.queueRet c ≠ 0 then (env.queueRet c, [c])
    else ((queueAll env rest).1, c :: (queueAll env rest).2)

/-- Index and status of the first pooled request whose submission the
environment fails, if any. -/
def firstFail (env : CamEnv) : List Nat → Option (Nat × Int)
  | [] => none
  | c :: rest =>
    if env.queueRet c ≠ 0 then some (0, env.queueRet c)
    else (firstFail env rest).map fun p => (p.1 + 1, p.2)

/-- Result of start_camera: the ScalerCrop rectangle passed to
Device.start, the returned status, the cookies of the requests
submitted in order, and the session globals after the call. -/
structure StartResult where
  crop : Rect
  status : Int
  queued : List Nat
  state : SessionState
deriving DecidableEq

/-- The centered crop rectangle start_camera computes: the
PixelArraySize property read with value_or(\x7bwidth, height\x7d), then
`crop.x = (max_size.width - width) / 2` and
`crop.y = (max_size.height - height) / 2` in unsigned arithmetic, with
the requested width and height. -/
def crop_rect (env : CamEnv) (width height : Nat) : Rect :=
  ⟨sub32 (env.pixelArraySize.getD (width, height)).1 width / 2,
   sub32 (env.pixelArraySize.getD (width, height)).2 height / 2,
   width, height⟩

/-- start_camera: computes the centered crop, sets it as the ScalerCrop
control (the crop field of the result is the control value passed to
Device.start), starts the device (returning its status on failure with
nothing queued), then queues every pooled request in order stopping at
the first nonzero status. -/
def start_camera (st : SessionState) (env : CamEnv)
    (width height : Nat) : StartResult :=
  if env.startRet ≠ 0 then ⟨crop_rect env width height, env.startRet, [], st⟩
  else ⟨crop_rect env width height, (queueAll env st.requests).1,
    (queueAll env st.requests).2, st⟩

/-- Back-to-back layout of a plane list: each plane begins exactly
where the previous one ends. -/
def planesChain : List Plane → Prop
  | [] => True
  | [_] => True
  | p :: q :: rest => q.offset = p.offset + p.length ∧ planesChain (q :: rest)

instance instDecPlanesChain : (l : List Plane) → Decidable (planesChain l)
  | [] => isTrue trivial
  | [_] => isTrue trivial
  | p :: q :: rest =>
    have : Decidable (planesChain (q :: rest)) := instDecPlanesChain (q :: rest)
    inferInstanceAs (Decidable (q.offset = p.offset + p.length ∧ planesChain (q :: rest)))

/-- The contiguity condition of the specification: all planes share one
file descriptor and are laid out back to back with no gaps (each plane
begins where the previous one ends).  Stated from the words of the
claim, to be compared with what the source code accepts. -/
def spec_contiguous (buf : FrameBuffer) : Prop :=
  (∀ p ∈ buf.planes, ∀ q ∈ buf.planes, p.fd = q.fd) ∧ planesChain buf.planes

instance (buf : FrameBuffer) : Decidable (spec_contiguous buf) :=
  inferInstanceAs (Decidable ((∀ p ∈ buf.planes, ∀ q ∈ buf.planes, p.fd = q.fd) ∧
    planesChain buf.planes))

/-- A concrete session state as left by a successful open: one buffer,
one request with cookie 0, callback handle 7. -/
def stOpen : SessionState :=
  ⟨true, true, true, some ⟨640, 480, 640, .YUV420, 1⟩, [⟨[⟨3, 0, 100⟩]⟩], [0], 7⟩

/-- A concrete environment on which every stack call succeeds. -/
def envBase : CamEnv :=
  ⟨0, 1, 0, some ⟨640, 480, 640, .YUV420, 1⟩, id, some (1920, 1080), 0, 1,
   [⟨[⟨3, 0, 100⟩]⟩], fun _ => true, fun _ => 0, 0, fun _ => 0⟩

/-- A concrete session state with all globals null, as before open. -/
def stClosed : SessionState := ⟨false, false, false, none, [], [], 0⟩

/-- An environment on which Device.acquire fails with -13. -/
def envAcqFail : CamEnv :=
  ⟨0, 1, -13, some ⟨640, 480, 640, .YUV420, 1⟩, id, some (1920, 1080), 0, 1,
   [⟨[⟨3, 0, 100⟩]⟩], fun _ => true, fun _ => 0, 0, fun _ => 0⟩

/-- An environment whose validate step silently substitutes another
pixel format for the visible stream. -/
def envFmtRej : CamEnv :=
  ⟨0, 1, 0, some ⟨640, 480, 640, .YUV420, 1⟩,
   fun c => ⟨c.width, c.height, c.stride, .other 0, c.bufferCount⟩,
   some (1920, 1080), 0, 1,
   [⟨[⟨3, 0, 100⟩]⟩], fun _ => true, fun _ => 0, 0, fun _ => 0⟩

/-- An environment whose device exposes no PixelArraySize property. -/
def envNoPas : CamEnv :=
  ⟨0, 1, 0, some ⟨640, 480, 640, .YUV420, 1⟩, id, none, 0, 1,
   [⟨[⟨3, 0, 100⟩]⟩], fun _ => true, fun _ => 0, 0, fun _ => 0⟩

/-- The open result produced by envBase from stClosed. -/
def rOpen : OpenResult :=
  ⟨0, [], ⟨true, true, true, some ⟨640, 480, 640, .YUV420, 1⟩,
    [⟨[⟨3, 0, 100⟩]⟩], [0], 7⟩⟩

/-- C1: buffer_at is claimed to return
\x7bfd, first plane offset, sum of plane lengths\x7d on every buffer whose
planes share one fd and are laid out back to back, and to abort
otherwise.  The code initialises the running length to the first plane
offset instead of 0 and re-checks plane 0 inside the fold, so a
contiguous single-plane buffer at offset 4 — which satisfies the
contiguity condition of the claim — is driven into the abort branch
instead of producing the descriptor ⟨3, 4, 10⟩, contradicting the
comment in the source that the loop merely verifies contiguity. -/
theorem buffer_at_contiguity_bug :
    spec_contiguous ⟨[⟨3, 4, 10⟩]⟩ ∧
    buffer_at ⟨true, true, true, some ⟨640, 480, 640, .YUV420, 1⟩,
      [⟨[⟨3, 4, 10⟩]⟩], [0], 7⟩ 0 = .contiguityAbort := by
  decide

/-- C5: close_camera on a session whose globals are all live performs
the teardown unconditionally and in exactly the order device stop,
request clear, buffer free, device release, manager stop, and leaves
manager, camera, allocator and requests all released (the config global
is not cleared by the source). -/
theorem close_camera_ordered (st : SessionState) (hcam : st.camera = true)
    (hcfg : st.config.isNone = false) (hal : st.allocator = true)
    (hman : st.manager = true) :
    close_camera st =
      some ([.deviceStop, .requestsClear, .allocFree, .cameraRelease, .managerStop],
        ⟨false, false, false, st.config, [], [], st.callback_handle⟩) := by
  unfold close_camera
  simp [hcam, hcfg, hal, hman]

/-- Witness for C5 at the concrete open state. -/
theorem close_camera_ordered_witness :
    close_camera stOpen =
      some ([.deviceStop, .requestsClear, .allocFree, .cameraRelease, .managerStop],
        ⟨false, false, false, stOpen.config, [], [], stOpen.callback_handle⟩) :=
  close_camera_ordered stOpen rfl rfl rfl rfl

/-- C6: a completion whose request status is Cancelled never invokes
the caller callback; any other status invokes it exactly once with the
stored callback handle of the session and the cookie of the completed
request. -/
theorem requestComplete_filters (st : SessionState) (status : ReqStatus)
    (cookie : Nat) :
    (status = .cancelled → requestComplete st status cookie = []) ∧
    (status ≠ .cancelled →
      requestComplete st status cookie = [(st.callback_handle, cookie)]) := by
  constructor
  · intro h; simp [requestComplete, h]
  · intro h; simp [requestComplete, h]

/-- Witness for C6: a Complete status invokes the callback once. -/
theorem requestComplete_filters_witness :
    requestComplete stOpen .complete 5 = [(7, 5)] :=
  (requestComplete_filters stOpen .complete 5).2 (by decide)

/-- C7: queue_request with an index at or past bufferCount fails with
the out-of-range error of the checked access; with an index in range it
marks the request reusable, then submits it, and returns the device
submission status unchanged. -/
theorem queue_request_checked (st : SessionState) (env : CamEnv) (i : Nat) :
    (num_buffers st ≤ i → queue_request st env i = .error ()) ∧
    (∀ h : i < num_buffers st,
      queue_request st env i =
        .ok (env.queueRet (st.requests.get ⟨i, h⟩),
          [.reuse (st.requests.get ⟨i, h⟩), .submit (st.requests.get ⟨i, h⟩)],
          st)) := by
  constructor
  · intro h
    unfold queue_request
    rw [List.get?_eq_none.mpr h]
  · intro h
    unfold queue_request
    rw [List.get?_eq_get h]

/-- Witness for C7: index 3 on a one-request pool is rejected. -/
theorem queue_request_checked_witness :
    queue_request stOpen envBase 3 = .error () :=
  (queue_request_checked stOpen envBase 3).1 (by decide)

/-- C10: buffer_at performs unchecked indexing: on a live session with
as many buffers as requests, any index at or past bufferCount runs into
the undefined out-of-bounds access (no out-of-range error value is
produced), while queue_request at the same index fails with the checked
out-of-range error. -/
theorem buffer_at_unchecked (st : SessionState) (env : CamEnv) (idx : Nat)
    (hcfg : st.config.isNone = false) (hal : st.allocator = true)
    (hlen : st.buffers.length = num_buffers st) (hidx : num_buffers st ≤ idx) :
    buffer_at st idx = .ub ∧ queue_request st env idx = .error () := by
  have hget : st.buffers.get? idx = none := by
    rw [List.get?_eq_none]
    rw [hlen]
    exact hidx
  have hget2 : st.requests.get? idx = none := List.get?_eq_none.mpr hidx
  rw [List.get?_eq_getElem?] at hget hget2
  constructor
  · simp [buffer_at, hcfg, hal, hget]
  · simp [queue_request, hget2]

/-- Witness for C10 at the concrete open state and index 3. -/
theorem buffer_at_unchecked_witness :
    buffer_at stOpen 3 = .ub ∧ queue_request stOpen envBase 3 = .error () :=
  buffer_at_unchecked stOpen envBase 3 rfl rfl rfl (by decide)

/-- Helper: wrapping subtraction of a value from itself is zero. -/
theorem sub32_self (a : Nat) : sub32 a a = 0 := by
  unfold sub32 M32
  omega

/-- Helper: wrapping subtraction agrees with truncated subtraction when
no wrap occurs. -/
theorem sub32_eq_sub (a b : Nat) (hb : b ≤ a) (ha : a < M32) :
    sub32 a b = a - b := by
  unfold sub32
  unfold M32 at ha ⊢
  omega

/-- Helper: the queueing loop submits the whole pool and returns 0 when
every submission succeeds, else stops right after the first failing
submission and returns its status. -/
theorem queueAll_eq (env : CamEnv) (l : List Nat) :
    queueAll env l =
      match firstFail env l with
      | none => (0, l)
      | some (k, s) => (s, l.take (k + 1)) := by
  induction l with
  | nil => rfl
  | cons c rest ih =>
    by_cases hc : env.queueRet c ≠ 0
    · unfold queueAll firstFail
      rw [if_pos hc, if_pos hc]
      rfl
    · unfold queueAll firstFail
      rw [if_neg hc, if_neg hc, ih]
      rcases hf : firstFail env rest with _ | ⟨k, s⟩
      · rfl
      · rfl

/-- Helper: start_camera never assigns the session globals. -/
theorem start_camera_state (st : SessionState) (env : CamEnv)
    (w h : Nat) : (start_camera st env w h).state = st := by
  unfold start_camera
  split <;> rfl

/-- Helper: a successful queue_request never assigns the session
globals. -/
theorem queue_request_state (st : SessionState) (env : CamEnv) (i : Nat)
    (out : Int × List QAction × SessionState)
    (hout : queue_request st env i = .ok out) : out.2.2 = st := by
  unfold queue_request at hout
  rcases hq : st.requests.get? i with _ | c
  · rw [hq] at hout
    exact Except.noConfusion hout
  · rw [hq] at hout
    injection hout with hout
    rw [← hout]

/-- Helper: complete case analysis of a non-crashing open_camera call:
either it fails at the stage failStage identifies, returning a nonzero
status, releasing exactly the resources acquired before that stage in
reverse acquisition order, and leaving the globals untouched, or every
stage passed, the status is 0, nothing is released, and all globals are
assigned. -/
theorem open_camera_cases (st : SessionState) (env : CamEnv)
    (w h hd : Nat) (r : OpenResult)
    (hr : open_camera st env w h hd = some r) :
    (r.status ≠ 0 ∧ failStage env w h ≠ .success ∧ r.state = st ∧
      r.releases = expectedReleases (failStage env w h)) ∨
    (r.status = 0 ∧ failStage env w h = .success ∧
      env.pixelArraySize.isSome = true ∧ r.releases = [] ∧
      ∃ g reqs, env.genConfig = some g ∧
        buildRequests env 0 env.allocBuffers.length = some reqs ∧
        r.state = ⟨true, true, true,
          some (env.validate (env.validate (mkStream0 g w h))),
          env.allocBuffers, reqs, hd⟩) := by
  unfold open_camera at hr
  by_cases h1 : env.managerStartRet ≠ 0
  · rw [if_pos h1] at hr
    obtain rfl := Option.some.inj hr
    have hfs : failStage env w h = .managerStart := by
      unfold failStage; simp [h1]
    rw [hfs]
    exact Or.inl ⟨h1, by decide, rfl, rfl⟩
  · rw [if_neg h1] at hr
    by_cases h2 : env.numCameras = 0
    · rw [if_pos h2] at hr
      obtain rfl := Option.some.inj hr
      have hfs : failStage env w h = .emptyDevices := by
        unfold failStage; simp [h1, h2]
      rw [hfs]
      exact Or.inl ⟨by simp, by decide, rfl, rfl⟩
    · rw [if_neg h2] at hr
      by_cases h3 : env.acquireRet ≠ 0
      · rw [if_pos h3] at hr
        obtain rfl := Option.some.inj hr
        have hfs : failStage env w h = .acquire := by
          unfold failStage; simp [h1, h2, h3]
        rw [hfs]
        exact Or.inl ⟨h3, by decide, rfl, rfl⟩
      · rw [if_neg h3] at hr
        split at hr
        next hgeq =>
          obtain rfl := Option.some.inj hr
          have hfs : failStage env w h = .genConfig := by
            unfold failStage; simp [h1, h2, h3, hgeq]
          rw [hfs]
          exact Or.inl ⟨by simp, by decide, rfl, rfl⟩
        next g hgeq =>
          split at hr
          next hps => exact Option.noConfusion hr
          next p hps =>
            by_cases h4 : (env.validate (mkStream0 g w h)).pixelFormat ≠ .YUV420
            · rw [if_pos h4] at hr
              obtain rfl := Option.some.inj hr
              have hfs : failStage env w h = .formatRejected := by
                unfold failStage; simp [h1, h2, h3, hgeq, h4]
              rw [hfs]
              exact Or.inl ⟨by simp, by decide, rfl, rfl⟩
            · rw [if_neg h4] at hr
              by_cases h5 : env.configureRet ≠ 0
              · rw [if_pos h5] at hr
                obtain rfl := Option.some.inj hr
                have hfs : failStage env w h = .configure := by
                  unfold failStage; simp [h1, h2, h3, hgeq, h4, h5]
                rw [hfs]
                exact Or.inl ⟨h5, by decide, rfl, rfl⟩
              · rw [if_neg h5] at hr
                by_cases h6 : env.allocateRet < 0
                · rw [if_pos h6] at hr
                  obtain rfl := Option.some.inj hr
                  have hfs : failStage env w h = .allocate := by
                    unfold failStage; simp [h1, h2, h3, hgeq, h4, h5, h6]
                  rw [hfs]
                  exact Or.inl ⟨by simp, by decide, rfl, rfl⟩
                · rw [if_neg h6] at hr
                  split at hr
                  next hb =>
                    obtain rfl := Option.some.inj hr
                    have hfs : failStage env w h = .poolBuild := by
                      unfold failStage; simp [h1, h2, h3, hgeq, h4, h5, h6, hb]
                    rw [hfs]
                    exact Or.inl ⟨by simp, by decide, rfl, rfl⟩
                  next reqs hb =>
                    obtain rfl := Option.some.inj hr
                    have hfs : failStage env w h = .success := by
                      unfold failStage; simp [h1, h2, h3, hgeq, h4, h5, h6, hb]
                    rw [hfs]
                    exact Or.inr ⟨rfl, rfl, by simp [hps], rfl, g, reqs,
                      hgeq, hb, rfl⟩

/-- C2: whenever open_camera fails at any stage, it returns a nonzero
status, releases exactly the resources acquired before that stage in
reverse acquisition order (expectedReleases of the failing stage:
buffer free, then device release, then manager stop, as applicable),
and leaves every session global exactly as it was; the globals are
assigned only on the all-success path, where nothing is released. -/
theorem open_camera_unwind (st : SessionState) (env : CamEnv)
    (w h hd : Nat) (r : OpenResult)
    (hr : open_camera st env w h hd = some r) :
    (failStage env w h ≠ .success →
      r.status ≠ 0 ∧ r.releases = expectedReleases (failStage env w h) ∧
      r.state = st) ∧
    (failStage env w h = .success →
      r.status = 0 ∧ r.releases = [] ∧
      ∃ g reqs, env.genConfig = some g ∧
        buildRequests env 0 env.allocBuffers.length = some reqs ∧
        r.state = ⟨true, true, true,
          some (env.validate (env.validate (mkStream0 g w h))),
          env.allocBuffers, reqs, hd⟩) := by
  rcases open_camera_cases st env w h hd r hr with
    ⟨hs, hfs, hst, hrel⟩ | ⟨hs, hfs, _, hrel, hsh⟩
  · exact ⟨fun _ => ⟨hs, hrel, hst⟩, fun hc => absurd hc hfs⟩
  · exact ⟨fun hc => absurd hfs hc, fun _ => ⟨hs, hrel, hsh⟩⟩

/-- Witness for C2: a failed acquire releases only the manager and
leaves the cleared state untouched. -/
theorem open_camera_unwind_witness :
    failStage envAcqFail 640 480 ≠ .success ∧
    OpenResult.releases ⟨-13, [.managerStop], stClosed⟩ =
      expectedReleases (failStage envAcqFail 640 480) ∧
    OpenResult.state ⟨-13, [.managerStop], stClosed⟩ = stClosed := by
  have h := open_camera_unwind stClosed envAcqFail 640 480 7
    ⟨-13, [.managerStop], stClosed⟩ (by decide)
  obtain ⟨hfail, -⟩ := h
  obtain ⟨-, h3, h4⟩ := hfail (by decide)
  exact ⟨by decide, h3, h4⟩

/-- C4: when the device validation silently substitutes another pixel
format for the visible stream, open_camera fails with -EINVAL, releases
the acquired device and then stops the manager before returning, and
leaves the session globals untouched: the mismatch is never
auto-corrected into a successful open. -/
theorem open_camera_format_rejected (st : SessionState) (env : CamEnv)
    (w h hd : Nat) (g : StreamCfg)
    (hm : env.managerStartRet = 0) (hc : env.numCameras ≠ 0)
    (ha : env.acquireRet = 0) (hg : env.genConfig = some g)
    (p : Nat × Nat) (hp : env.pixelArraySize = some p)
    (hfmt : (env.validate (mkStream0 g w h)).pixelFormat ≠ .YUV420) :
    open_camera st env w h hd =
      some ⟨-22, [.cameraRelease, .managerStop], st⟩ := by
  unfold open_camera
  simp [hm, hc, ha, hg, hp, hfmt]

/-- Witness for C4: an environment whose validate step substitutes a
different pixel format makes open fail with -22 after releasing the
device and stopping the manager. -/
theorem open_camera_format_rejected_witness :
    open_camera stClosed envFmtRej 640 480 7 =
      some ⟨-22, [.cameraRelease, .managerStop], stClosed⟩ :=
  open_camera_format_rejected stClosed envFmtRej 640 480 7
    ⟨640, 480, 640, .YUV420, 1⟩ rfl (by decide) rfl rfl
    (1920, 1080) rfl (by decide)

/-- C9: open_camera dereferences the PixelArraySize property with no
fallback: when every stage before the dereference passes and the device
exposes no pixel-array size, the call runs into the undefined empty
optional access (modelled as none); consequently every successful open
implies the device exposed a PixelArraySize. -/
theorem open_requires_pixel_array (st : SessionState) (env : CamEnv)
    (w h hd : Nat) :
    (env.managerStartRet = 0 → env.numCameras ≠ 0 → env.acquireRet = 0 →
      env.genConfig.isSome = true → env.pixelArraySize = none →
      open_camera st env w h hd = none) ∧
    (∀ r, open_camera st env w h hd = some r → r.status = 0 →
      env.pixelArraySize.isSome = true) := by
  constructor
  · intro hm hc ha hg hp
    obtain ⟨g, hg⟩ := Option.isSome_iff_exists.mp hg
    unfold open_camera
    simp [hm, hc, ha, hg, hp]
  · intro r hr h0
    rcases open_camera_cases st env w h hd r hr with ⟨hs, -⟩ | ⟨-, -, hps, -⟩
    · exact absurd h0 hs
    · exact hps

/-- Witness for C9: the environment with no PixelArraySize crashes
open. -/
theorem open_requires_pixel_array_witness :
    open_camera stClosed envNoPas 640 480 7 = none :=
  (open_requires_pixel_array stClosed envNoPas 640 480 7).1
    rfl (by decide) rfl rfl rfl

/-- C3: with an open session and a device that starts, start_camera
passes the ScalerCrop control
(x, y) = ((sensorWidth - width) / 2, (sensorHeight - height) / 2) of
size (width, height) computed from the pixel-array size — or the crop
(0, 0, width, height) when the device exposes none — to Device.start,
leaves the globals unchanged, and then queues the pooled requests in
pool order: all of them with status 0 when every submission succeeds,
else exactly the prefix up to and including the first failing
submission, whose status is returned immediately. -/
theorem start_camera_centered_crop (st : SessionState) (env : CamEnv)
    (w h : Nat)
    (hfit : ∀ a b, env.pixelArraySize = some (a, b) →
      w ≤ a ∧ h ≤ b ∧ a < M32 ∧ b < M32)
    (hstart : env.startRet = 0) :
    ((start_camera st env w h).crop =
      match env.pixelArraySize with
      | none => ⟨0, 0, w, h⟩
      | some (a, b) => ⟨(a - w) / 2, (b - h) / 2, w, h⟩) ∧
    (start_camera st env w h).state = st ∧
    (match firstFail env st.requests with
     | none => (start_camera st env w h).status = 0 ∧
         (start_camera st env w h).queued = st.requests
     | some (k, s) => (start_camera st env w h).status = s ∧
         (start_camera st env w h).queued = st.requests.take (k + 1)) := by
  have hs : start_camera st env w h =
      ⟨crop_rect env w h, (queueAll env st.requests).1,
        (queueAll env st.requests).2, st⟩ := by
    unfold start_camera
    rw [if_neg (by simp [hstart])]
  refine ⟨?_, ?_, ?_⟩
  · rw [hs]
    rcases hps : env.pixelArraySize with _ | ⟨a, b⟩
    · unfold crop_rect
      rw [hps]
      simp [sub32_self]
    · obtain ⟨hwa, hhb, haM, hbM⟩ := hfit a b hps
      unfold crop_rect
      rw [hps]
      simp [sub32_eq_sub _ _ hwa haM, sub32_eq_sub _ _ hhb hbM]
  · rw [hs]
  · rw [hs, queueAll_eq]
    rcases hf : firstFail env st.requests with _ | ⟨k, s⟩
    · exact ⟨rfl, rfl⟩
    · exact ⟨rfl, rfl⟩

/-- Witness for C3: a 1920x1080 sensor with a 640x480 request gives the
centered crop (640, 300, 640, 480) and queues the single pooled
request with status 0. -/
theorem start_camera_centered_crop_witness :
    (start_camera stOpen envBase 640 480).crop = ⟨640, 300, 640, 480⟩ ∧
    (start_camera stOpen envBase 640 480).status = 0 ∧
    (start_camera stOpen envBase 640 480).queued = [0] := by
  have hfit : ∀ a b, envBase.pixelArraySize = some (a, b) →
      640 ≤ a ∧ 480 ≤ b ∧ a < M32 ∧ b < M32 := by
    intro a b hab
    have h1 : ((1920, 1080) : Nat × Nat) = (a, b) := Option.some.inj hab
    injection h1 with ha hb
    subst ha
    subst hb
    refine ⟨by decide, by decide, by decide, by decide⟩
  have h := start_camera_centered_crop stOpen envBase 640 480 hfit rfl
  exact ⟨h.1, h.2.2.1, h.2.2.2⟩

/-- C8: after a successful open, the stored configuration is the
validated visible stream, frame_format reports its
(width, height, stride) — equal to the requested width and height
whenever validation left them unchanged — and no subsequent
start_camera or queue_request call changes the stored StreamConfig. -/
theorem frame_format_fixed (st : SessionState) (env : CamEnv)
    (w h hd : Nat) (r : OpenResult)
    (hr : open_camera st env w h hd = some r) (h0 : r.status = 0) :
    ∃ g v, env.genConfig = some g ∧
      v = env.validate (env.validate (mkStream0 g w h)) ∧
      r.state.config = some v ∧
      frame_format r.state = some ⟨v.width, v.height, v.stride⟩ ∧
      (v.width = w ∧ v.height = h →
        frame_format r.state = some ⟨w, h, v.stride⟩) ∧
      (∀ env2 w2 h2, (start_camera r.state env2 w2 h2).state.config = some v) ∧
      (∀ env2 i out, queue_request r.state env2 i = .ok out →
        out.2.2.config = some v) := by
  rcases open_camera_cases st env w h hd r hr with
    ⟨hs, -⟩ | ⟨-, -, -, -, g, reqs, hg, hb, hst⟩
  · exact absurd h0 hs
  · refine ⟨g, env.validate (env.validate (mkStream0 g w h)), hg, rfl,
      ?_, ?_, ?_, ?_, ?_⟩
    · rw [hst]
    · rw [hst]; rfl
    · intro hwh
      have h4 : frame_format r.state =
          some ⟨(env.validate (env.validate (mkStream0 g w h))).width,
                (env.validate (env.validate (mkStream0 g w h))).height,
                (env.validate (env.validate (mkStream0 g w h))).stride⟩ := by
        rw [hst]; rfl
      rw [h4, hwh.1, hwh.2]
    · intro env2 w2 h2
      rw [start_camera_state, hst]
    · intro env2 i out hout
      rw [queue_request_state r.state env2 i out hout, hst]

/-- Witness for C8: the concrete successful open reports the validated
640x480 geometry with stride 640. -/
theorem frame_format_fixed_witness :
    frame_format rOpen.state = some ⟨640, 480, 640⟩ := by
  obtain ⟨g, v, hg, hv, -, hf, -, -, -⟩ :=
    frame_format_fixed stClosed envBase 640 480 7 rOpen (by decide) rfl
  cases Option.some.inj hg
  subst hv
  exact hf

end CameraLinux
